import Mathlib

/-!
Shallow embedding of the chart-data normalization and rendering dispatch
layer of the email-report dashboard (files `static/js/charts.js` and
`static/js/advanced-charts.js`), together with theorems settling the
specification claims about it.

JS numbers are modelled as `ℚ` (exact rational arithmetic) except where the
data model fixes them to non-negative integers (`ℕ`); `Math.sqrt` forces `ℝ`
for the bubble radius.  Absent / null payload fields are modelled with
`Option`.  DOM output is modelled as an abstract per-slot page state.
-/

/-- `{ hour, count }` record of the `hourly_activity` payload field. -/
structure HourlyRecord where
  hour : String
  count : ℕ
deriving DecidableEq

/-- `{ label, sent, received }` record of the `contact_data` payload field. -/
structure ContactRecord where
  label : String
  sent : ℕ
  received : ℕ
deriving DecidableEq

/-- `{ text, weight }` record of the `word_cloud` payload field. -/
structure WeightedTerm where
  text : String
  weight : ℚ
deriving DecidableEq

/-- One dataset of the `email_metrics` payload field. -/
structure MetricDataset where
  label : String
  data : List ℚ
deriving DecidableEq

/-- The `email_metrics` payload field (`labels` + `datasets` both present). -/
structure MetricSeries where
  labels : List String
  datasets : List MetricDataset
deriving DecidableEq

/-- The payload bundle consumed by `initializeAdvancedCharts`; each field may
be absent (`none`). -/
structure Payload where
  hourly_activity : Option (List HourlyRecord)
  contact_data : Option (List ContactRecord)
  word_cloud : Option (List WeightedTerm)
  email_metrics : Option MetricSeries
  activity_heatmap : Option (List ℚ)

/-- Bubble radius of `createBubbleChart` (charts.js):
`Math.max(5, Math.min(15, Math.sqrt((item.sent || 0) + (item.received || 0)) * 1.5))`. -/
noncomputable def bubbleRadius (sent received : ℕ) : ℝ :=
  max 5 (min 15 (Real.sqrt ((sent : ℝ) + (received : ℝ)) * 1.5))

/-- Encoded bubble point `{x, y, r, label}` built by `createBubbleChart`. -/
structure EncodedPoint where
  x : ℕ
  y : ℕ
  r : ℝ
  label : String

/-- The bubble-data computation of `createBubbleChart` (charts.js): slice the
input to `maxContacts = 5` records and map each to an `{x, y, r, label}`
point. -/
noncomputable def createBubbleChart (data : List ContactRecord) : List EncodedPoint :=
  (data.take 5).map fun item =>
    { x := item.sent
      y := item.received
      r := bubbleRadius item.sent item.received
      label := item.label }

/-- `contactData.some(item => item.sent > 0 && item.received > 0)` in
`createContactBubbleChart` (advanced-charts.js). -/
def hasEnoughData (contactData : List ContactRecord) : Bool :=
  contactData.any fun item => item.sent > 0 && item.received > 0

/-- Label map of the stacked-bar fallback in `createContactBubbleChart`:
labels longer than 15 characters become their first 12 characters + `"..."`. -/
def truncateLabel (label : String) : String :=
  if label.length > 15 then (label.take 12) ++ "..." else label

/-- The 10-entry fixed color palette of `createWordCloudVisualization`. -/
def wordCloudColors : List String :=
  ["#4f46e5", "#10b981", "#f59e0b", "#ef4444", "#3b82f6",
   "#8b5cf6", "#ec4899", "#14b8a6", "#f97316", "#06b6d4"]

/-- The visual attributes `createWordCloudVisualization` assigns to one
displayed term (text content, font size in px, bold flag, palette color). -/
structure WordStyle where
  text : String
  fontSize : ℚ
  bold : Bool
  color : String
deriving DecidableEq

/-- The word-span computation of `createWordCloudVisualization`
(advanced-charts.js): display the first `min(20, length)` terms; take
`maxWeight` from the first displayed term; scale font size linearly between
14 and 40 by `weight / maxWeight`; bold when that ratio exceeds 0.6; color
by display index modulo the palette length. -/
def createWordCloudVisualization (wordCloudData : List WeightedTerm) : List WordStyle :=
  let displayWords := wordCloudData.take (min 20 wordCloudData.length)
  let maxWeight := (displayWords.headD ⟨"", 0⟩).weight
  displayWords.enum.map fun p =>
    let weightRatio := p.2.weight / maxWeight
    { text := p.2.text
      fontSize := 14 + ((40 - 14) * weightRatio)
      bold := decide (weightRatio > 0.6)
      color := wordCloudColors.getD (p.1 % wordCloudColors.length) "" }

/-- JS `data[i] || 0`: absent index or falsy (zero) value collapses to 0. -/
def orZero (v : Option ℚ) : ℚ :=
  match v with
  | none => 0
  | some x => if x = 0 then 0 else x

/-- The 7×24 reshape loop of `createHeatMapChart` (charts.js):
`heatmapData[d][h] = data[d * 24 + h] || 0` for `d < 7`, `h < 24`. -/
def reshapeHeatmap (data : List ℚ) : List (List ℚ) :=
  (List.range 7).map fun d =>
    (List.range 24).map fun h => orZero (data.get? (d * 24 + h))

/-- `Math.max(...data)` over a non-empty activity matrix (the gate never
passes an empty one; 0 is used for the unreachable empty case). -/
def heatmapMax (data : List ℚ) : ℚ :=
  match data with
  | [] => 0
  | x :: xs => xs.foldl max x

/-- The color a heat-map cell's `backgroundColor` callback returns: the fixed
pale `rgba(240,240,240,0.5)` for a zero value, else a point on the
blue→yellow gradient (green/blue channels) or the yellow→red gradient
(red/green channels). -/
inductive CellColor where
  | zeroColor
  | blueYellow (g b : ℤ)
  | yellowRed (r g : ℤ)
deriving DecidableEq

/-- `Math.min(1, value / (maxValue * 0.7))` in `createHeatMapChart`. -/
def intensityOf (value maxValue : ℚ) : ℚ :=
  min 1 (value / (maxValue * 0.7))

/-- The per-cell `backgroundColor` callback of `createHeatMapChart`
(`intensity` abbreviates `intensityOf value maxValue`). -/
def cellColor (value maxValue : ℚ) : CellColor :=
  if value = 0 then .zeroColor
  else if intensityOf value maxValue < 0.5 then
    .blueYellow ⌊162 + (255 - 162) * (intensityOf value maxValue * 2)⌋
      ⌊235 - intensityOf value maxValue * 2 * 235⌋
  else
    .yellowRed ⌊(255 : ℚ)⌋
      ⌊255 - (255 - 99) * ((intensityOf value maxValue - 0.5) * 2)⌋

/-- The data `createHeatMapChart` hands to the drawing primitive: the 7×24
value matrix and the per-cell colors (computed against `Math.max(...data)`). -/
structure HeatMapEncoding where
  rows : List (List ℚ)
  colors : List (List CellColor)
deriving DecidableEq

/-- `createHeatMapChart` (charts.js), restricted to its data shaping. -/
def createHeatMapChart (data : List ℚ) : HeatMapEncoding :=
  let heatmapData := reshapeHeatmap data
  let maxValue := heatmapMax data
  { rows := heatmapData
    colors := heatmapData.map fun dayData => dayData.map fun v => cellColor v maxValue }

/-- The encoding a slot hands to the external drawing primitive. -/
inductive ChartEnc where
  | bars (labels : List String) (values : List ℕ)
  | stacked (labels : List String) (sent received : List ℕ)
  | bubbles (points : List EncodedPoint)
  | wordcloud (words : List WordStyle)
  | radar (labels : List String) (datasets : List MetricDataset)
  | heatmap (enc : HeatMapEncoding)

/-- Observable state of one chart slot on the page: untouched (pre-render),
showing a no-data placeholder message, or showing a drawn chart. -/
inductive PageSlot where
  | pre
  | placeholder
  | drawn (enc : ChartEnc)

/-- `createHourlyActivityChart` (advanced-charts.js): an empty list returns
silently (slot keeps its previous state); otherwise the bar chart of
`(hour, count)` pairs is drawn. -/
def createHourlyActivityChart (hourlyData : List HourlyRecord) (prev : PageSlot) : PageSlot :=
  if hourlyData.length = 0 then prev
  else .drawn (.bars (hourlyData.map (·.hour)) (hourlyData.map (·.count)))

/-- `createContactBubbleChart` (advanced-charts.js): empty data shows a
message; without any record having both `sent > 0` and `received > 0` it
draws the stacked-bar fallback over the first 3 records (labels truncated);
otherwise it draws the bubble chart built from the first 8 records. -/
noncomputable def createContactBubbleChart (contactData : List ContactRecord) : PageSlot :=
  if contactData.length = 0 then .placeholder
  else if hasEnoughData contactData = false then
    .drawn (.stacked
      ((contactData.take 3).map fun item => truncateLabel item.label)
      ((contactData.take 3).map fun item => item.sent)
      ((contactData.take 3).map fun item => item.received))
  else
    .drawn (.bubbles (createBubbleChart (contactData.take 8)))

/-- `createActivityHeatmap` (advanced-charts.js): placeholder when the list
is empty or no value is positive; otherwise the heat map is drawn. -/
def createActivityHeatmap (heatmapData : List ℚ) : PageSlot :=
  if heatmapData.length = 0 then .placeholder
  else if (heatmapData.any fun v => v > 0) = false then .placeholder
  else .drawn (.heatmap (createHeatMapChart heatmapData))

/-- The five chart slots, in the order `initializeAdvancedCharts` visits
them. -/
inductive SlotId where
  | hourly
  | contacts
  | wordcloud
  | metrics
  | heatmap
deriving DecidableEq

/-- One per-slot branch of the `try` block of `initializeAdvancedCharts`:
the field guard (`data.x && Array.isArray(data.x) && data.x.length > 0`, or
the labels/datasets guard for metrics) selects the chart function or the
placeholder.  `prev` is the slot's state before the branch runs (only the
hourly chart can leave it unchanged). -/
noncomputable def processSlot (data : Payload) (prev : PageSlot) : SlotId → PageSlot
  | .hourly =>
    match data.hourly_activity with
    | some l => createHourlyActivityChart l prev
    | none => .placeholder
  | .contacts =>
    match data.contact_data with
    | some l => if l.length > 0 then createContactBubbleChart l else .placeholder
    | none => .placeholder
  | .wordcloud =>
    match data.word_cloud with
    | some l =>
        if l.length > 0 then .drawn (.wordcloud (createWordCloudVisualization l))
        else .placeholder
    | none => .placeholder
  | .metrics =>
    match data.email_metrics with
    | some m => .drawn (.radar m.labels m.datasets)
    | none => .placeholder
  | .heatmap =>
    match data.activity_heatmap with
    | some l => if l.length > 0 then createActivityHeatmap l else .placeholder
    | none => .placeholder

/-- Slot visiting order of the `try` block. -/
def slotOrder : List SlotId := [.hourly, .contacts, .wordcloud, .metrics, .heatmap]

/-- Position of a slot in `slotOrder`. -/
def slotIndex : SlotId → ℕ
  | .hourly => 0
  | .contacts => 1
  | .wordcloud => 2
  | .metrics => 3
  | .heatmap => 4

/-- The `try { ... } catch` sequence of `initializeAdvancedCharts`:
process the slots in order; `throwsAt` says whether the external
drawing/DOM layer throws while a given slot is processed.  A throw aborts
the remaining sequence, the exception is caught (the returned flag `true`
models the `console.error` log) and the page state reached so far is kept. -/
noncomputable def runSeq (data : Payload) (throwsAt : SlotId → Bool) :
    List SlotId → (SlotId → PageSlot) → (SlotId → PageSlot) × Bool
  | [], st => (st, false)
  | s :: rest, st =>
    if throwsAt s then (st, true)
    else runSeq data throwsAt rest
      (fun t => if t = s then processSlot data (st s) t else st t)

/-- `initializeAdvancedCharts` (advanced-charts.js): a null payload shows
every placeholder and returns before the `try` block; otherwise the five
slots are processed in order under the top-level `try`/`catch`. -/
noncomputable def initializeAdvancedCharts (data : Option Payload)
    (throwsAt : SlotId → Bool) : (SlotId → PageSlot) × Bool :=
  match data with
  | none => (fun _ => .placeholder, false)
  | some d => runSeq d throwsAt slotOrder (fun _ => .pre)

/-- A payload whose only present field is a zero-length `hourly_activity`. -/
def emptyHourlyPayload : Payload :=
  { hourly_activity := some []
    contact_data := none
    word_cloud := none
    email_metrics := none
    activity_heatmap := none }

/-- A payload whose only present field is a one-record `hourly_activity`. -/
def oneHourlyPayload : Payload :=
  { hourly_activity := some [{ hour := "00:00", count := 2 }]
    contact_data := none
    word_cloud := none
    email_metrics := none
    activity_heatmap := none }

/-- Six contact records, each with `sent > 0` and `received > 0`. -/
def sixPairedContacts : List ContactRecord :=
  [{ label := "a", sent := 1, received := 1 },
   { label := "b", sent := 1, received := 1 },
   { label := "c", sent := 1, received := 1 },
   { label := "d", sent := 1, received := 1 },
   { label := "e", sent := 1, received := 1 },
   { label := "f", sent := 1, received := 1 }]

/-- Two contact records, neither with both `sent > 0` and `received > 0`;
the first label is longer than 15 characters. -/
def unpairedContacts : List ContactRecord :=
  [{ label := "first.contact@example.com", sent := 0, received := 5 },
   { label := "short", sent := 3, received := 0 }]

/-- A payload whose `activity_heatmap` is the all-zero 168-length matrix. -/
def allZeroHeatmapPayload : Payload :=
  { hourly_activity := none
    contact_data := none
    word_cloud := none
    email_metrics := none
    activity_heatmap := some (List.replicate 168 0) }

/-- **C5.** For every contact record with non-negative sent and received
values, the encoded bubble radius equals
`clamp(sqrt(sent + received) * 1.5, 5, 15)`; consequently the radius always
lies within `[5, 15]`, and the record `(sent = 0, received = 0)` yields
`r = 5`. -/
theorem bubble_radius_clamped :
    (∀ (data : List ContactRecord), ∀ pt ∈ createBubbleChart data,
        pt.r = max 5 (min 15 (Real.sqrt ((pt.x : ℝ) + (pt.y : ℝ)) * 1.5)) ∧
        5 ≤ pt.r ∧ pt.r ≤ 15) ∧
    bubbleRadius 0 0 = 5 := by
  have hbounds : ∀ (sent received : ℕ),
      5 ≤ bubbleRadius sent received ∧ bubbleRadius sent received ≤ 15 := by
    intro s r
    exact ⟨le_max_left _ _, max_le (by norm_num) (min_le_left _ _)⟩
  constructor
  · intro data pt hpt
    simp only [createBubbleChart, List.mem_map] at hpt
    obtain ⟨item, hitem, rfl⟩ := hpt
    exact ⟨rfl, hbounds item.sent item.received⟩
  · unfold bubbleRadius
    norm_num [Real.sqrt_zero]

theorem bubble_radius_clamped_witness :
    5 ≤ bubbleRadius 2 3 ∧ bubbleRadius 2 3 ≤ 15 :=
  (bubble_radius_clamped.1 [{ label := "a", sent := 2, received := 3 }]
    { x := 2, y := 3, r := bubbleRadius 2 3, label := "a" }
    (by simp [createBubbleChart])).2

/-- **C4.** If the whole payload is null/absent, the dispatch
short-circuits: every one of the five chart slots receives its placeholder,
no chart is drawn, and nothing else (in particular no per-slot behavior of
the try block) influences the outcome. -/
theorem null_payload_all_placeholders :
    ∀ (throwsAt : SlotId → Bool),
      (∀ s, (initializeAdvancedCharts none throwsAt).1 s = .placeholder) ∧
      (initializeAdvancedCharts none throwsAt).2 = false ∧
      (∀ s enc, (initializeAdvancedCharts none throwsAt).1 s ≠ .drawn enc) ∧
      (∀ throwsAt2, initializeAdvancedCharts none throwsAt =
        initializeAdvancedCharts none throwsAt2) := by
  intro throwsAt
  refine ⟨fun s => rfl, rfl, fun s enc h => ?_, fun t2 => rfl⟩
  exact PageSlot.noConfusion h

/-- **C3 counterexample.** A present but zero-length `hourly_activity`
array leaves the hourly slot untouched (silent no-op): it does not render
the placeholder, contradicting the claim. -/
theorem hourly_empty_silent_noop_cex :
    processSlot emptyHourlyPayload .pre .hourly = .pre ∧
    processSlot emptyHourlyPayload .pre .hourly ≠ .placeholder := by
  refine ⟨rfl, fun h => ?_⟩
  exact PageSlot.noConfusion h

/-- **C3 (amended).** For the hourly slot, an absent field renders the
placeholder; a present but zero-length array is a silent no-op that leaves
the slot in its previous state; a non-empty array renders the bar chart of
`(hour, count)` pairs. -/
theorem hourly_slot_behavior :
    ∀ (data : Payload) (prev : PageSlot),
      (data.hourly_activity = none → processSlot data prev .hourly = .placeholder) ∧
      (data.hourly_activity = some [] → processSlot data prev .hourly = prev) ∧
      (∀ l, data.hourly_activity = some l → l ≠ [] →
        processSlot data prev .hourly =
          .drawn (.bars (l.map (·.hour)) (l.map (·.count)))) := by
  intro data prev
  refine ⟨fun h => ?_, fun h => ?_, fun l h hne => ?_⟩
  · simp [processSlot, h]
  · simp [processSlot, h, createHourlyActivityChart]
  · simp [processSlot, h, createHourlyActivityChart, List.length_eq_zero, hne]

theorem hourly_slot_behavior_witness :
    processSlot emptyHourlyPayload .placeholder .hourly = .placeholder ∧
    processSlot oneHourlyPayload .pre .hourly = .drawn (.bars ["00:00"] [2]) := by
  constructor
  · exact (hourly_slot_behavior emptyHourlyPayload .placeholder).2.1 rfl
  · have h := (hourly_slot_behavior oneHourlyPayload .pre).2.2
      [{ hour := "00:00", count := 2 }] rfl (by simp)
    simpa using h

/-- **C1 counterexample.** Six records all with `sent > 0` and
`received > 0` take the Primary bubble path, but the encoding contains 5
points, not `min(6, 8) = 6`: `createBubbleChart` re-slices the 8 records the
dispatch passes down to its own `maxContacts = 5`. -/
theorem bubble_primary_min8_cex :
    hasEnoughData sixPairedContacts = true ∧
    createContactBubbleChart sixPairedContacts =
      .drawn (.bubbles (createBubbleChart (sixPairedContacts.take 8))) ∧
    (createBubbleChart (sixPairedContacts.take 8)).length = 5 ∧
    min sixPairedContacts.length 8 = 6 := by
  refine ⟨by decide, rfl, ?_, by decide⟩
  simp [createBubbleChart, sixPairedContacts]

/-- **C1 (amended).** For every contact-record list with some record having
`sent > 0` and `received > 0`, the Primary bubble path is taken and the
dispatch passes the first 8 records, but `createBubbleChart` keeps only the
first 5 of them: the encoding equals the point-map of the first 5 records
and contains exactly `min(n, 5)` encoded points. -/
theorem bubble_primary_takes_first_five :
    ∀ (contactData : List ContactRecord),
      hasEnoughData contactData = true →
      createContactBubbleChart contactData =
        .drawn (.bubbles (createBubbleChart (contactData.take 8))) ∧
      createBubbleChart (contactData.take 8) =
        (contactData.take 5).map (fun item =>
          { x := item.sent, y := item.received,
            r := bubbleRadius item.sent item.received, label := item.label }) ∧
      (createBubbleChart (contactData.take 8)).length = min contactData.length 5 := by
  intro l h
  have hne : l ≠ [] := by
    rintro rfl
    simp [hasEnoughData] at h
  refine ⟨?_, ?_, ?_⟩
  · simp [createContactBubbleChart, List.length_eq_zero, hne, h]
  · simp [createBubbleChart, List.take_take]
  · simp [createBubbleChart]
    omega

theorem bubble_primary_takes_first_five_witness :
    (createBubbleChart (sixPairedContacts.take 8)).length =
      min sixPairedContacts.length 5 :=
  (bubble_primary_takes_first_five sixPairedContacts (by decide)).2.2

/-- **C9.** For every non-empty contact-record list in which no record has
both `sent > 0` and `received > 0`, the dispatch draws the stacked-bar
fallback built from at most the first 3 records, with labels longer than 15
characters shown as their first 12 characters + `"..."`, shorter labels
unchanged, and the `sent`/`received` value sequences aligned with the label
sequence. -/
theorem contacts_fallback_stacked_spec :
    ∀ (contactData : List ContactRecord),
      contactData ≠ [] →
      hasEnoughData contactData = false →
      createContactBubbleChart contactData =
        .drawn (.stacked
          ((contactData.take 3).map fun item => truncateLabel item.label)
          ((contactData.take 3).map fun item => item.sent)
          ((contactData.take 3).map fun item => item.received)) ∧
      (∀ item ∈ contactData.take 3,
        (item.label.length > 15 →
          truncateLabel item.label = (item.label.take 12) ++ "...") ∧
        (item.label.length ≤ 15 → truncateLabel item.label = item.label)) ∧
      ((contactData.take 3).map fun item => truncateLabel item.label).length =
        min contactData.length 3 ∧
      ((contactData.take 3).map fun item => item.sent).length =
        ((contactData.take 3).map fun item => truncateLabel item.label).length ∧
      ((contactData.take 3).map fun item => item.received).length =
        ((contactData.take 3).map fun item => truncateLabel item.label).length := by
  intro l hne h
  refine ⟨?_, ?_, ?_, by simp, by simp⟩
  · simp [createContactBubbleChart, List.length_eq_zero, hne, h]
  · intro item _
    constructor
    · intro hl
      simp [truncateLabel, hl]
    · intro hl
      unfold truncateLabel
      rw [if_neg (by omega)]
  · simp
    omega

theorem contacts_fallback_stacked_spec_witness :
    createContactBubbleChart unpairedContacts =
      .drawn (.stacked
        ((unpairedContacts.take 3).map fun item => truncateLabel item.label)
        ((unpairedContacts.take 3).map fun item => item.sent)
        ((unpairedContacts.take 3).map fun item => item.received)) ∧
    truncateLabel "first.contact@example.com" = "first.contac" ++ "..." ∧
    truncateLabel "short" = "short" := by
  have h := contacts_fallback_stacked_spec unpairedContacts (by decide) (by decide)
  refine ⟨h.1, ?_, ?_⟩
  · have h2 := (h.2.1 { label := "first.contact@example.com", sent := 0, received := 5 }
      (by decide)).1 (by decide)
    rw [h2]
    decide
  · exact (h.2.1 { label := "short", sent := 3, received := 0 }
      (by decide)).2 (by decide)

theorem le_foldl_max (xs : List ℚ) : ∀ a : ℚ, a ≤ xs.foldl max a := by
  induction xs with
  | nil => intro a; simp
  | cons y ys ih => intro a; exact le_trans (le_max_left a y) (ih (max a y))

theorem mem_le_foldl_max (xs : List ℚ) : ∀ (a x : ℚ), x ∈ xs → x ≤ xs.foldl max a := by
  induction xs with
  | nil =>
    intro a x hx
    simp at hx
  | cons y ys ih =>
    intro a x hx
    rcases List.mem_cons.1 hx with rfl | hx2
    · exact le_trans (le_max_right a x) (le_foldl_max ys _)
    · exact ih _ x hx2

theorem foldl_max_mem (xs : List ℚ) : ∀ a : ℚ, xs.foldl max a = a ∨ xs.foldl max a ∈ xs := by
  induction xs with
  | nil => intro a; left; rfl
  | cons y ys ih =>
    intro a
    rcases ih (max a y) with h | h
    · simp only [List.foldl_cons]
      rcases max_choice a y with hm | hm
      · left; rw [h, hm]
      · right; rw [h, hm]; exact List.mem_cons_self y ys
    · right
      exact List.mem_cons_of_mem y (by simpa using h)

theorem intensityOf_self (v : ℚ) (hv : 0 < v) : intensityOf v v = 1 := by
  unfold intensityOf
  rw [div_mul_eq_div_div, div_self (ne_of_gt hv)]
  rw [min_eq_left (by norm_num)]

theorem cellColor_intensity_one (v m : ℚ) (hv : v ≠ 0) (hI : intensityOf v m = 1) :
    cellColor v m = .yellowRed 255 99 := by
  unfold cellColor
  rw [if_neg hv, hI, if_neg (by norm_num)]
  norm_num

/-- **C7.** For the HeatMap slot, the gate yields the placeholder exactly
when the activity matrix is absent, has zero length, or (for non-negative
values) every value is zero; in particular an all-zero 168-length matrix
yields the placeholder and no heat-map is drawn. -/
theorem heatmap_gate_empty_iff :
    (∀ (data : Payload) (prev : PageSlot), data.activity_heatmap = none →
      processSlot data prev .heatmap = .placeholder) ∧
    (∀ (data : Payload) (prev : PageSlot) (l : List ℚ),
      data.activity_heatmap = some l → (∀ v ∈ l, 0 ≤ v) →
      (processSlot data prev .heatmap = .placeholder ↔
        (l = [] ∨ ∀ v ∈ l, v = 0))) ∧
    (processSlot allZeroHeatmapPayload .pre .heatmap = .placeholder ∧
     ∀ enc, processSlot allZeroHeatmapPayload .pre .heatmap ≠ .drawn enc) := by
  have hiff : ∀ (data : Payload) (prev : PageSlot) (l : List ℚ),
      data.activity_heatmap = some l → (∀ v ∈ l, 0 ≤ v) →
      (processSlot data prev .heatmap = .placeholder ↔
        (l = [] ∨ ∀ v ∈ l, v = 0)) := by
    intro data prev l h hnn
    simp only [processSlot, h]
    by_cases hl : l = []
    · subst hl
      simp
    · rw [if_pos (by simpa [List.length_pos] using hl)]
      unfold createActivityHeatmap
      rw [if_neg (by simp [List.length_eq_zero, hl])]
      by_cases hz : ∀ v ∈ l, v = 0
      · have hany : (l.any fun v => decide (v > 0)) = false := by
          simp only [List.any_eq_false, decide_eq_true_eq]
          intro x hx
          rw [hz x hx]
          norm_num
        rw [if_pos hany]
        simp only [true_iff, iff_true]
        exact Or.inr hz
      · have hany : (l.any fun v => decide (v > 0)) = true := by
          push_neg at hz
          obtain ⟨v, hvmem, hvne⟩ := hz
          have hvpos : 0 < v := lt_of_le_of_ne (hnn v hvmem) (Ne.symm hvne)
          simp only [List.any_eq_true, decide_eq_true_eq]
          exact ⟨v, hvmem, hvpos⟩
        rw [if_neg (by simp [hany])]
        simp [hl, hz]
  have hzero : processSlot allZeroHeatmapPayload .pre .heatmap = .placeholder :=
    (hiff allZeroHeatmapPayload .pre (List.replicate 168 0) rfl
      (fun v hv => by simp [List.eq_of_mem_replicate hv])).2
      (Or.inr fun v hv => List.eq_of_mem_replicate hv)
  exact ⟨fun data prev h => by simp [processSlot, h], hiff,
    hzero, fun enc h => PageSlot.noConfusion (hzero.symm.trans h)⟩

theorem heatmap_gate_empty_iff_witness :
    processSlot allZeroHeatmapPayload .pre .heatmap = .placeholder :=
  (heatmap_gate_empty_iff.2.1 allZeroHeatmapPayload .pre (List.replicate 168 0) rfl
    (fun v hv => by simp [List.eq_of_mem_replicate hv])).2
    (Or.inr fun v hv => List.eq_of_mem_replicate hv)

/-- **C8.** A heat-map cell with value exactly 0 gets the fixed neutral pale
color regardless of the intensity formula; otherwise the blue→yellow branch
is taken when `intensity = min(1, value/(max*0.7))` is below 0.5 and the
yellow→red branch otherwise; a matrix with a single nonzero value `v` gives
that cell intensity 1 (red end, `rgba(255, 99, 64)`) and every other cell
the zero-color. -/
theorem heatmap_cell_color_spec :
    (∀ m : ℚ, cellColor 0 m = .zeroColor) ∧
    (∀ v m : ℚ, v ≠ 0 → intensityOf v m < 0.5 →
      cellColor v m = .blueYellow ⌊162 + (255 - 162) * (intensityOf v m * 2)⌋
        ⌊235 - intensityOf v m * 2 * 235⌋) ∧
    (∀ v m : ℚ, v ≠ 0 → ¬ intensityOf v m < 0.5 →
      cellColor v m = .yellowRed ⌊(255 : ℚ)⌋
        ⌊255 - (255 - 99) * ((intensityOf v m - 0.5) * 2)⌋) ∧
    (∀ v : ℚ, 0 < v → intensityOf v v = 1 ∧ cellColor v v = .yellowRed 255 99) ∧
    (∀ (l : List ℚ) (v : ℚ), 0 < v → v ∈ l → (∀ x ∈ l, x = 0 ∨ x = v) →
      heatmapMax l = v ∧
      ∀ x ∈ l, cellColor x (heatmapMax l) =
        if x = 0 then .zeroColor else .yellowRed 255 99) := by
  refine ⟨fun m => by simp [cellColor],
    fun v m hv hlt => by rw [cellColor, if_neg hv, if_pos hlt],
    fun v m hv hge => by rw [cellColor, if_neg hv, if_neg hge],
    fun v hv => ⟨intensityOf_self v hv,
      cellColor_intensity_one v v (ne_of_gt hv) (intensityOf_self v hv)⟩,
    ?_⟩
  intro l v hv hmem hall
  have hmax : heatmapMax l = v := by
    cases l with
    | nil => simp at hmem
    | cons x xs =>
      have hle : v ≤ heatmapMax (x :: xs) := by
        rcases List.mem_cons.1 hmem with rfl | hmem2
        · exact le_foldl_max xs v
        · exact mem_le_foldl_max xs x v hmem2
      have hmem3 : heatmapMax (x :: xs) ∈ x :: xs := by
        rcases foldl_max_mem xs x with h | h
        · rw [show heatmapMax (x :: xs) = xs.foldl max x from rfl, h]
          exact List.mem_cons_self x xs
        · exact List.mem_cons_of_mem x h
      rcases hall _ hmem3 with h0 | hveq
      · exfalso
        rw [h0] at hle
        exact absurd hle (not_le.2 hv)
      · exact hveq
  refine ⟨hmax, ?_⟩
  intro x hx
  rcases hall x hx with rfl | rfl
  · rw [if_pos rfl]
    simp [cellColor]
  · rw [if_neg (ne_of_gt hv), hmax]
    exact cellColor_intensity_one x x (ne_of_gt hv) (intensityOf_self x hv)

theorem heatmap_cell_color_spec_witness :
    heatmapMax [0, 3, 0] = 3 ∧
    ∀ x ∈ [(0 : ℚ), 3, 0], cellColor x (heatmapMax [0, 3, 0]) =
      if x = 0 then .zeroColor else .yellowRed 255 99 :=
  heatmap_cell_color_spec.2.2.2.2 [0, 3, 0] 3 (by norm_num) (by simp)
    (by intro x hx; fin_cases hx <;> simp)

theorem orZero_eq_getD (o : Option ℚ) : orZero o = o.getD 0 := by
  cases o with
  | none => rfl
  | some x => by_cases h : x = 0 <;> simp [orZero, h]

/-- **C10.** For every input activity array of any length containing at
least one positive value, the heat-map reshape produces exactly 7 rows of
24 cells each, where the cell at row `d`, hour `h` holds `input[d*24+h]`
when that index exists and its value is truthy (nonzero), and 0 otherwise —
inputs shorter than 168 are zero-extended, entries beyond index 167 are
ignored, and out-of-range indexing never fails. -/
theorem heatmap_reshape_spec :
    ∀ (data : List ℚ), (∃ v ∈ data, 0 < v) →
      (reshapeHeatmap data).length = 7 ∧
      (∀ row ∈ reshapeHeatmap data, row.length = 24) ∧
      (∀ d h : ℕ, d < 7 → h < 24 →
        (∀ (hix : d * 24 + h < data.length), data.get ⟨d * 24 + h, hix⟩ ≠ 0 →
          ((reshapeHeatmap data).getD d []).getD h 0 = data.get ⟨d * 24 + h, hix⟩) ∧
        (data.getD (d * 24 + h) 0 = 0 →
          ((reshapeHeatmap data).getD d []).getD h 0 = 0)) := by
  intro data _
  have hcell : ∀ d h : ℕ, d < 7 → h < 24 →
      ((reshapeHeatmap data).getD d []).getD h 0 = orZero (data.get? (d * 24 + h)) := by
    intro d h hd hh
    have hrow : (reshapeHeatmap data).getD d [] =
        (List.range 24).map fun k => orZero (data.get? (d * 24 + k)) := by
      rw [List.getD_eq_getD_get?]
      simp only [reshapeHeatmap]
      rw [List.get?_map, List.get?_range hd]
      rfl
    rw [hrow, List.getD_eq_getD_get?, List.get?_map, List.get?_range hh]
    rfl
  refine ⟨by simp [reshapeHeatmap], ?_, ?_⟩
  · intro row hrow2
    simp only [reshapeHeatmap, List.mem_map] at hrow2
    obtain ⟨d, _, rfl⟩ := hrow2
    simp
  · intro d h hd hh
    constructor
    · intro hix hne
      rw [hcell d h hd hh, List.get?_eq_get hix]
      simp only [orZero]
      rw [if_neg hne]
    · intro h0
      rw [hcell d h hd hh, orZero_eq_getD]
      rw [List.getD_eq_getD_get?] at h0
      exact h0

theorem heatmap_reshape_spec_witness :
    (reshapeHeatmap [0, 5]).length = 7 ∧
    ((reshapeHeatmap [0, 5]).getD 0 []).getD 1 0 = 5 := by
  have h := heatmap_reshape_spec [0, 5] ⟨5, by simp, by norm_num⟩
  refine ⟨h.1, ?_⟩
  have h2 := (h.2.2 0 1 (by norm_num) (by norm_num)).1 (by norm_num) (by decide)
  rw [h2]
  decide

/-- **C6.** For every non-empty weighted-term list, the word cloud displays
at most the first 20 terms in given order; with `maxWeight` taken as the
first displayed term's weight, each displayed term at index `i` gets
`fontSize = 14 + (40 - 14) * (weight / maxWeight)`, is bold exactly when
`weight / maxWeight > 0.6`, and is colored by its display index modulo the
10-entry fixed palette. -/
theorem wordcloud_display_spec :
    ∀ (terms : List WeightedTerm), terms ≠ [] →
      (createWordCloudVisualization terms).length = min terms.length 20 ∧
      (∀ i : ℕ, i < (createWordCloudVisualization terms).length →
        (createWordCloudVisualization terms).getD i ⟨"", 0, false, ""⟩ =
          { text := (terms.getD i ⟨"", 0⟩).text
            fontSize := 14 + ((40 - 14) *
              ((terms.getD i ⟨"", 0⟩).weight / (terms.getD 0 ⟨"", 0⟩).weight))
            bold := decide ((terms.getD i ⟨"", 0⟩).weight /
              (terms.getD 0 ⟨"", 0⟩).weight > 0.6)
            color := wordCloudColors.getD (i % 10) "" }) := by
  intro terms hne
  have hn : 0 < terms.length := List.length_pos.2 hne
  have hlen : (createWordCloudVisualization terms).length = min terms.length 20 := by
    simp only [createWordCloudVisualization, List.length_map, List.enum_length,
      List.length_take]
    omega
  refine ⟨hlen, ?_⟩
  intro i hi
  rw [hlen] at hi
  have hik : i < min 20 terms.length := by omega
  have hin : i < terms.length := by omega
  have hhead : (terms.take (min 20 terms.length)).headD ⟨"", 0⟩ =
      terms.getD 0 ⟨"", 0⟩ := by
    cases terms with
    | nil => simp at hne
    | cons t rest =>
      have hmin : min 20 (t :: rest).length = (min 19 rest.length) + 1 := by
        simp only [List.length_cons]
        omega
      rw [hmin]
      simp [List.take_succ_cons]
  rw [List.getD_eq_getD_get?]
  simp only [createWordCloudVisualization]
  rw [List.get?_map, List.get?_enum, List.get?_take hik, List.get?_eq_get hin]
  simp only [Option.map_some', Option.getD_some, hhead]
  rw [List.getD_eq_get terms _ hin, List.getD_eq_get terms _ hn]
  simp [wordCloudColors]

theorem wordcloud_display_spec_witness :
    (createWordCloudVisualization [⟨"a", 40⟩, ⟨"b", 20⟩]).length = 2 ∧
    (createWordCloudVisualization [⟨"a", 40⟩, ⟨"b", 20⟩]).getD 1 ⟨"", 0, false, ""⟩ =
      { text := "b", fontSize := 27, bold := false, color := "#10b981" } := by
  have h := wordcloud_display_spec [⟨"a", 40⟩, ⟨"b", 20⟩] (by decide)
  constructor
  · rw [h.1]
    decide
  · have h2 := h.2 1 (by rw [h.1]; decide)
    rw [h2]
    norm_num [wordCloudColors]

/-- **C2.** For every payload, if the external drawing/DOM layer first
throws while slot `s0` is being processed, the exception is caught at the
top level of the dispatch and logged rather than propagated: the dispatch
still returns, the flag records the log, slots strictly before `s0` keep
their rendered state, and slots at or after `s0` are left in their
pre-render state. -/
theorem dispatch_exception_caught :
    ∀ (data : Payload) (throwsAt : SlotId → Bool) (s0 : SlotId),
      throwsAt s0 = true →
      (∀ t, slotIndex t < slotIndex s0 → throwsAt t = false) →
      (initializeAdvancedCharts (some data) throwsAt).2 = true ∧
      (∀ t, slotIndex t < slotIndex s0 →
        (initializeAdvancedCharts (some data) throwsAt).1 t =
          processSlot data .pre t) ∧
      (∀ t, slotIndex s0 ≤ slotIndex t →
        (initializeAdvancedCharts (some data) throwsAt).1 t = .pre) := by
  intro data throwsAt s0 h1 h2
  cases s0 with
  | hourly =>
    refine ⟨?_, ?_, ?_⟩
    · simp [initializeAdvancedCharts, slotOrder, runSeq, h1]
    · intro t ht
      cases t <;> simp [slotIndex] at ht
    · intro t ht
      cases t <;> simp [initializeAdvancedCharts, slotOrder, runSeq, h1]
  | contacts =>
    have hh : throwsAt .hourly = false := h2 .hourly (by decide)
    refine ⟨?_, ?_, ?_⟩
    · simp [initializeAdvancedCharts, slotOrder, runSeq, h1, hh]
    · intro t ht
      cases t <;> simp [slotIndex] at ht <;>
        simp [initializeAdvancedCharts, slotOrder, runSeq, h1, hh]
    · intro t ht
      cases t <;> simp [slotIndex] at ht <;>
        simp [initializeAdvancedCharts, slotOrder, runSeq, h1, hh]
  | wordcloud =>
    have hh : throwsAt .hourly = false := h2 .hourly (by decide)
    have hc : throwsAt .contacts = false := h2 .contacts (by decide)
    refine ⟨?_, ?_, ?_⟩
    · simp [initializeAdvancedCharts, slotOrder, runSeq, h1, hh, hc]
    · intro t ht
      cases t <;> simp [slotIndex] at ht <;>
        simp [initializeAdvancedCharts, slotOrder, runSeq, h1, hh, hc]
    · intro t ht
      cases t <;> simp [slotIndex] at ht <;>
        simp [initializeAdvancedCharts, slotOrder, runSeq, h1, hh, hc]
  | metrics =>
    have hh : throwsAt .hourly = false := h2 .hourly (by decide)
    have hc : throwsAt .contacts = false := h2 .contacts (by decide)
    have hw : throwsAt .wordcloud = false := h2 .wordcloud (by decide)
    refine ⟨?_, ?_, ?_⟩
    · simp [initializeAdvancedCharts, slotOrder, runSeq, h1, hh, hc, hw]
    · intro t ht
      cases t <;> simp [slotIndex] at ht <;>
        simp [initializeAdvancedCharts, slotOrder, runSeq, h1, hh, hc, hw]
    · intro t ht
      cases t <;> simp [slotIndex] at ht <;>
        simp [initializeAdvancedCharts, slotOrder, runSeq, h1, hh, hc, hw]
  | heatmap =>
    have hh : throwsAt .hourly = false := h2 .hourly (by decide)
    have hc : throwsAt .contacts = false := h2 .contacts (by decide)
    have hw : throwsAt .wordcloud = false := h2 .wordcloud (by decide)
    have hm : throwsAt .metrics = false := h2 .metrics (by decide)
    refine ⟨?_, ?_, ?_⟩
    · simp [initializeAdvancedCharts, slotOrder, runSeq, h1, hh, hc, hw, hm]
    · intro t ht
      cases t <;> simp [slotIndex] at ht <;>
        simp [initializeAdvancedCharts, slotOrder, runSeq, h1, hh, hc, hw, hm]
    · intro t ht
      cases t <;> simp [slotIndex] at ht <;>
        simp [initializeAdvancedCharts, slotOrder, runSeq, h1, hh, hc, hw, hm]

theorem dispatch_exception_caught_witness :
    (initializeAdvancedCharts (some oneHourlyPayload)
        (fun t => decide (t = SlotId.wordcloud))).2 = true ∧
    (initializeAdvancedCharts (some oneHourlyPayload)
        (fun t => decide (t = SlotId.wordcloud))).1 .hourly =
      processSlot oneHourlyPayload .pre .hourly ∧
    (initializeAdvancedCharts (some oneHourlyPayload)
        (fun t => decide (t = SlotId.wordcloud))).1 .heatmap = .pre := by
  have h := dispatch_exception_caught oneHourlyPayload
    (fun t => decide (t = SlotId.wordcloud)) .wordcloud (by decide)
    (by intro t ht; cases t <;> first | rfl | (simp [slotIndex] at ht))
  exact ⟨h.1, h.2.1 .hourly (by decide), h.2.2 .heatmap (by decide)⟩
